import Mathlib

/-!
Shallow embedding of `src/socks5_proxy.py` — a SOCKS5 forward proxy
(RFC 1928, CONNECT only) with per-connection outbound bandwidth
throttling — together with theorems settling the specification claims.

Conventions of the embedding:
* Python integer byte counters are embedded as `Int` (Python ints are
  unbounded); clock readings and durations (Python floats holding
  seconds) are embedded as `Rat`, keeping the arithmetic of the source
  exact.
* Methods that read `time.time()` under the lock take the clock reading
  `now : Rat` as an explicit argument.
* Methods that mutate `self` are functions from the old state to the
  result paired with the new state.
-/

/-- The `BandwidthConfig` dataclass (socks5_proxy.py, lines 15-20):
`max_bytes_per_second` (0 = unlimited), `burst_size` (extra bytes allowed
above the cap), `reset_interval` (window length in seconds). -/
structure BandwidthConfig where
  max_bytes_per_second : Int
  burst_size : Int
  reset_interval : Rat
deriving DecidableEq

/-- The mutable state of a `BandwidthThrottler` (socks5_proxy.py, lines
26-30): `bytes_sent` is the counter for the current window, `last_reset`
the clock reading when the window started. -/
structure ThrottlerState where
  bytes_sent : Int
  last_reset : Rat
deriving DecidableEq

/-- `BandwidthThrottler.can_send` (socks5_proxy.py, lines 32-54): with
throttling disabled it returns `True` without touching the state;
otherwise it reads the clock, resets the window when the interval has
passed, then admits `bytes_to_send` against the cap and, failing that,
against the cap plus a positive burst allowance. -/
def can_send (cfg : BandwidthConfig) (st : ThrottlerState) (now : Rat)
    (bytes_to_send : Int) : Bool × ThrottlerState :=
  if cfg.max_bytes_per_second = 0 then (true, st)
  else
    let st1 := if now - st.last_reset ≥ cfg.reset_interval
      then { bytes_sent := 0, last_reset := now } else st
    if st1.bytes_sent + bytes_to_send ≤ cfg.max_bytes_per_second then (true, st1)
    else if 0 < cfg.burst_size ∧
        st1.bytes_sent + bytes_to_send ≤
          cfg.max_bytes_per_second + cfg.burst_size then (true, st1)
    else (false, st1)

/-- `BandwidthThrottler.record_sent` (socks5_proxy.py, lines 56-59): it
adds the byte count to the window counter under the lock; it never reads
the clock, so it performs no window-expiry check. -/
def record_sent (st : ThrottlerState) (bytes_sent : Int) : ThrottlerState :=
  { st with bytes_sent := st.bytes_sent + bytes_sent }

/-- `BandwidthThrottler.get_delay` (socks5_proxy.py, lines 61-86): with
throttling disabled the delay is 0; an expired window is reset and the
delay is 0 for this call; otherwise the delay is 0 when the request fits
in the remaining allowance, and else the proportional delay
`excess / max * interval`, clamped to the time remaining in the window. -/
def get_delay (cfg : BandwidthConfig) (st : ThrottlerState) (now : Rat)
    (bytes_to_send : Int) : Rat × ThrottlerState :=
  if cfg.max_bytes_per_second = 0 then (0, st)
  else if now - st.last_reset ≥ cfg.reset_interval then
    (0, { bytes_sent := 0, last_reset := now })
  else
    let time_remaining := cfg.reset_interval - (now - st.last_reset)
    let bytes_available := max 0 (cfg.max_bytes_per_second - st.bytes_sent)
    if bytes_to_send ≤ bytes_available then (0, st)
    else
      let excess_bytes := bytes_to_send - bytes_available
      let delay := ((excess_bytes : Rat) / (cfg.max_bytes_per_second : Rat)) *
        cfg.reset_interval
      (min delay time_remaining, st)

/-- Modelled from the words of the specification (section 4.1): the delay
formula `delayFor` as the spec states it, on a non-expired window with
elapsed time `elapsed`. Used to compare the spec formula against the
source function `get_delay`. -/
def spec_delayFor (M : Int) (resetInterval elapsed : Rat)
    (bytesSentInWindow n : Int) : Rat :=
  let available := max 0 (M - bytesSentInWindow)
  if n ≤ available then 0
  else min ((((n - available : Int) : Rat) / (M : Rat)) * resetInterval)
    (resetInterval - elapsed)

/-- C4: with `maxBytesPerSecond = 0`, for every state, clock reading and
requested byte count, `can_send` returns `True` and `get_delay` returns
`0`, both leaving the state untouched. -/
theorem C4_unlimited_always_allows (cfg : BandwidthConfig)
    (st : ThrottlerState) (now : Rat) (n : Int)
    (h : cfg.max_bytes_per_second = 0) :
    can_send cfg st now n = (true, st) ∧ get_delay cfg st now n = (0, st) := by
  constructor <;> simp [can_send, get_delay, h]

/-- Witness for C4 at a concrete input: unlimited config, a fresh state,
and a one-million-byte request. -/
theorem C4_unlimited_always_allows_witness :
    can_send ⟨0, 0, 1⟩ ⟨0, 0⟩ 0 1000000 = (true, ⟨0, 0⟩) ∧
    get_delay ⟨0, 0, 1⟩ ⟨0, 0⟩ 0 1000000 = (0, ⟨0, 0⟩) :=
  C4_unlimited_always_allows ⟨0, 0, 1⟩ ⟨0, 0⟩ 0 1000000 rfl

/-- C5: with `maxBytesPerSecond = M > 0` and `burstSize = B ≥ 0`, in the
state immediately after a window reset (counter 0, window not expired),
`can_send (M + B)` returns `True` and `can_send (M + B + 1)` returns
`False`. -/
theorem C5_burst_boundary (cfg : BandwidthConfig) (t now : Rat)
    (hM : 0 < cfg.max_bytes_per_second) (hB : 0 ≤ cfg.burst_size)
    (hexp : now - t < cfg.reset_interval) :
    (can_send cfg ⟨0, t⟩ now
      (cfg.max_bytes_per_second + cfg.burst_size)).1 = true ∧
    (can_send cfg ⟨0, t⟩ now
      (cfg.max_bytes_per_second + cfg.burst_size + 1)).1 = false := by
  have hne : cfg.max_bytes_per_second ≠ 0 := ne_of_gt hM
  have hlt : ¬ (now - t ≥ cfg.reset_interval) := not_le.mpr hexp
  constructor
  · simp only [can_send, if_neg hne, if_neg hlt]
    split_ifs with h1 h2
    · rfl
    · rfl
    · exfalso
      rcases lt_or_eq_of_le hB with hB0 | hB0
      · exact h2 ⟨hB0, by omega⟩
      · omega
  · simp only [can_send, if_neg hne, if_neg hlt]
    split_ifs with h1 h2
    · omega
    · omega
    · rfl

/-- Witness for C5 at a concrete input: `M = 1000`, `B = 500`, a fresh
window: sending 1500 bytes is admitted, 1501 is refused. -/
theorem C5_burst_boundary_witness :
    0 < (1000 : Int) ∧ 0 ≤ (500 : Int) ∧ (0 : Rat) - 0 < 1 ∧
    (can_send ⟨1000, 500, 1⟩ ⟨0, 0⟩ 0 (1000 + 500)).1 = true ∧
    (can_send ⟨1000, 500, 1⟩ ⟨0, 0⟩ 0 (1000 + 500 + 1)).1 = false := by
  refine ⟨by norm_num, by norm_num, by norm_num, ?_⟩
  exact C5_burst_boundary ⟨1000, 500, 1⟩ 0 0 (by norm_num) (by norm_num)
    (by norm_num)

/-- C3 counterexample: the claim asserts that all three throttler
operations, `record_sent` included, first check window expiry and reset
the counter and window start before their main effect. `record_sent`
never reads the clock: on the expired state (counter 50, window started
at 0, clock now 5, interval 1) it yields counter 60 with the window start
still 0, not the reset-then-add result (counter 10, window start 5). -/
theorem C3_counterexample :
    ¬ (∀ (cfg : BandwidthConfig) (st : ThrottlerState) (now : Rat) (n : Int),
        0 < cfg.max_bytes_per_second →
        cfg.reset_interval ≤ now - st.last_reset →
        record_sent st n = { bytes_sent := n, last_reset := now }) := by
  intro h
  have h1 := h ⟨100, 0, 1⟩ ⟨50, 0⟩ 5 10 (by norm_num) (by norm_num)
  have h2 : record_sent ⟨50, 0⟩ 10 = ⟨60, 0⟩ := rfl
  rw [h2] at h1
  have h3 : (60 : Int) = 10 := congrArg ThrottlerState.bytes_sent h1
  norm_num at h3

/-- C3 amended: when `maxBytesPerSecond > 0` and the window has expired,
`can_send` and `get_delay` each reset the counter to 0 and advance the
window start to now before their main effect (so they never compare a
stale counter), but `record_sent` performs no expiry check: it
unconditionally adds to the counter and leaves the window start
unchanged, so the counter can be incremented while the window has
expired. -/
theorem C3_amended_expiry_discipline (cfg : BandwidthConfig)
    (st : ThrottlerState) (now : Rat) (n : Int)
    (hM : 0 < cfg.max_bytes_per_second)
    (hexp : cfg.reset_interval ≤ now - st.last_reset) :
    ((can_send cfg st now n).1 = true ↔
      n ≤ cfg.max_bytes_per_second ∨
        (0 < cfg.burst_size ∧
         n ≤ cfg.max_bytes_per_second + cfg.burst_size)) ∧
    (can_send cfg st now n).2 = { bytes_sent := 0, last_reset := now } ∧
    get_delay cfg st now n = (0, { bytes_sent := 0, last_reset := now }) ∧
    record_sent st n =
      { bytes_sent := st.bytes_sent + n, last_reset := st.last_reset } := by
  have hne : cfg.max_bytes_per_second ≠ 0 := ne_of_gt hM
  refine ⟨?_, ?_, ?_, rfl⟩
  · simp only [can_send, if_neg hne, if_pos hexp]
    split_ifs with h1 h2
    · simp only [zero_add] at h1
      simp [h1]
    · simp only [zero_add] at h2
      simp [h2]
    · simp only [zero_add] at h1 h2
      simp only [Bool.false_eq_true, false_iff]
      intro hc
      rcases hc with hc | hc
      · exact h1 hc
      · exact h2 hc
  · simp only [can_send, if_neg hne, if_pos hexp]
    split_ifs <;> rfl
  · simp only [get_delay, if_neg hne, if_pos hexp]

/-- Witness for C3 amended at a concrete input: config with cap 100 and
burst 50, expired state (counter 30, window start 0, clock 2), request of
10 bytes. -/
theorem C3_amended_expiry_discipline_witness :
    ((can_send ⟨100, 50, 1⟩ ⟨30, 0⟩ 2 10).1 = true ↔
      (10 : Int) ≤ 100 ∨ ((0 : Int) < 50 ∧ (10 : Int) ≤ 100 + 50)) ∧
    (can_send ⟨100, 50, 1⟩ ⟨30, 0⟩ 2 10).2 =
      { bytes_sent := 0, last_reset := 2 } ∧
    get_delay ⟨100, 50, 1⟩ ⟨30, 0⟩ 2 10 =
      (0, { bytes_sent := 0, last_reset := 2 }) ∧
    record_sent ⟨30, 0⟩ 10 = { bytes_sent := 30 + 10, last_reset := 0 } :=
  C3_amended_expiry_discipline ⟨100, 50, 1⟩ ⟨30, 0⟩ 2 10 (by norm_num)
    (by norm_num)

/-- C6: on a non-expired window with a positive cap, `get_delay` returns
exactly the delay formula stated by the spec (`spec_delayFor`): zero when
the request fits in `max 0 (M - bytesSentInWindow)`, else the
proportional delay capped at the time remaining in the window; and at the
concrete configuration M = 1000, B = 0, interval = 1 with a fresh window,
`get_delay 1500` is 0.5 seconds. -/
theorem C6_delay_matches_spec_formula (cfg : BandwidthConfig)
    (st : ThrottlerState) (now : Rat) (n : Int)
    (hM : 0 < cfg.max_bytes_per_second)
    (hexp : now - st.last_reset < cfg.reset_interval) :
    (get_delay cfg st now n).1 =
      spec_delayFor cfg.max_bytes_per_second cfg.reset_interval
        (now - st.last_reset) st.bytes_sent n ∧
    (get_delay ⟨1000, 0, 1⟩ ⟨0, 0⟩ 0 1500).1 = 1 / 2 := by
  constructor
  · simp only [get_delay, spec_delayFor, if_neg (ne_of_gt hM),
      if_neg (not_le.mpr hexp)]
    split_ifs <;> rfl
  · norm_num [get_delay]

/-- Witness for C6 at a concrete input: M = 1000, counter 200, elapsed
0.5 of a 1-second window, request 900 bytes. -/
theorem C6_delay_matches_spec_formula_witness :
    (get_delay ⟨1000, 0, 1⟩ ⟨200, 0⟩ (1 / 2) 900).1 =
      spec_delayFor 1000 1 (1 / 2 - 0) 200 900 ∧
    (get_delay ⟨1000, 0, 1⟩ ⟨0, 0⟩ 0 1500).1 = 1 / 2 :=
  C6_delay_matches_spec_formula ⟨1000, 0, 1⟩ ⟨200, 0⟩ (1 / 2) 900
    (by norm_num) (by norm_num)

/-- C7: within a fixed, non-expired window state with a positive cap,
`get_delay` is monotonically non-decreasing in the requested byte count,
and the returned delay never exceeds the time remaining in the current
window. -/
theorem C7_delay_monotone_and_capped (cfg : BandwidthConfig)
    (st : ThrottlerState) (now : Rat)
    (hM : 0 < cfg.max_bytes_per_second)
    (h0 : st.last_reset ≤ now)
    (hexp : now - st.last_reset < cfg.reset_interval) :
    (∀ n1 n2 : Int, n1 ≤ n2 →
      (get_delay cfg st now n1).1 ≤ (get_delay cfg st now n2).1) ∧
    (∀ n : Int, (get_delay cfg st now n).1 ≤
      cfg.reset_interval - (now - st.last_reset)) := by
  have hne : cfg.max_bytes_per_second ≠ 0 := ne_of_gt hM
  have hlt : ¬ (now - st.last_reset ≥ cfg.reset_interval) := not_le.mpr hexp
  set A : Int := max 0 (cfg.max_bytes_per_second - st.bytes_sent) with hA
  set TR : Rat := cfg.reset_interval - (now - st.last_reset) with hTR
  have hTRpos : 0 < TR := by
    rw [hTR]
    exact sub_pos.mpr hexp
  have hIpos : 0 < cfg.reset_interval := by
    have he0 : 0 ≤ now - st.last_reset := sub_nonneg.mpr h0
    calc (0 : Rat) ≤ now - st.last_reset := he0
      _ < cfg.reset_interval := hexp
  have hMr : (0 : Rat) < (cfg.max_bytes_per_second : Rat) := by
    exact_mod_cast hM
  have hd : ∀ n : Int, (get_delay cfg st now n).1 =
      if n ≤ A then 0
      else min ((((n - A : Int) : Rat) / (cfg.max_bytes_per_second : Rat)) *
        cfg.reset_interval) TR := by
    intro n
    simp only [get_delay, if_neg hne, if_neg hlt]
    split_ifs <;> rfl
  have hnonneg : ∀ n : Int, ¬ n ≤ A →
      0 ≤ (((n - A : Int) : Rat) / (cfg.max_bytes_per_second : Rat)) *
        cfg.reset_interval := by
    intro n hn
    have hx : (0 : Rat) ≤ ((n - A : Int) : Rat) := by
      have : (0 : Int) ≤ n - A := by omega
      exact_mod_cast this
    exact mul_nonneg (div_nonneg hx (le_of_lt hMr)) (le_of_lt hIpos)
  constructor
  · intro n1 n2 h12
    rw [hd n1, hd n2]
    split_ifs with ha1 ha2 ha2
    · exact le_refl 0
    · exact le_min (hnonneg n2 ha2) (le_of_lt hTRpos)
    · omega
    · apply min_le_min _ (le_refl TR)
      apply mul_le_mul_of_nonneg_right _ (le_of_lt hIpos)
      have hcast : ((n1 - A : Int) : Rat) ≤ ((n2 - A : Int) : Rat) := by
        exact_mod_cast sub_le_sub_right h12 A
      exact div_le_div_of_nonneg_right hcast (le_of_lt hMr)
  · intro n
    rw [hd n]
    split_ifs with ha
    · exact le_of_lt hTRpos
    · exact min_le_right _ _

/-- Witness for C7 at a concrete input: M = 1000, counter 200, elapsed
0.5 of a 1-second window; requests of 900 and 1800 bytes. -/
theorem C7_delay_monotone_and_capped_witness :
    (get_delay ⟨1000, 0, 1⟩ ⟨200, 0⟩ (1 / 2) 900).1 ≤
      (get_delay ⟨1000, 0, 1⟩ ⟨200, 0⟩ (1 / 2) 1800).1 ∧
    (get_delay ⟨1000, 0, 1⟩ ⟨200, 0⟩ (1 / 2) 1800).1 ≤
      1 - ((1 / 2 : Rat) - 0) := by
  have h := C7_delay_monotone_and_capped ⟨1000, 0, 1⟩ ⟨200, 0⟩ (1 / 2)
    (by norm_num) (by norm_num) (by norm_num)
  exact ⟨h.1 900 1800 (by norm_num), h.2 1800⟩

/-- The client→target direction of the nested `forward_data` loop inside
`SOCKS5Server._relay_data` (socks5_proxy.py, lines 372-397), restricted
to its throttling behaviour: each received chunk is paired with the clock
reading at the moment the throttler is consulted; the loop asks
`get_delay` for the chunk length, sleeps that long when positive, records
the chunk as sent via `record_sent`, and forwards the chunk. The loop
never consults `can_send`. The result lists, in order, the sleep applied
before each chunk is forwarded and the chunk itself. -/
def forward_data (cfg : BandwidthConfig) :
    ThrottlerState → List (Rat × List Nat) → List (Rat × List Nat)
  | _, [] => []
  | st, (now, data) :: rest =>
    let d := get_delay cfg st now (data.length : Int)
    let st1 := record_sent d.2 (data.length : Int)
    (d.1, data) :: forward_data cfg st1 rest

/-- C9: for two bandwidth configurations identical except in `burstSize`,
`get_delay` returns the same delay and the same successor state on every
throttler state, clock reading and byte count, and the relay loop
(which consults only `get_delay` and `record_sent`, never `can_send`)
forwards every chunk with identical delays: the burst allowance never
changes when or whether a chunk is forwarded. -/
theorem C9_burst_never_affects_forwarding (c1 c2 : BandwidthConfig)
    (hmax : c1.max_bytes_per_second = c2.max_bytes_per_second)
    (hint : c1.reset_interval = c2.reset_interval) :
    (∀ (st : ThrottlerState) (now : Rat) (n : Int),
      get_delay c1 st now n = get_delay c2 st now n) ∧
    (∀ (st : ThrottlerState) (chunks : List (Rat × List Nat)),
      forward_data c1 st chunks = forward_data c2 st chunks) := by
  obtain ⟨m1, b1, r1⟩ := c1
  obtain ⟨m2, b2, r2⟩ := c2
  have hm : m1 = m2 := hmax
  have hr : r1 = r2 := hint
  subst hm
  subst hr
  have hg : ∀ (st : ThrottlerState) (now : Rat) (n : Int),
      get_delay ⟨m1, b1, r1⟩ st now n = get_delay ⟨m1, b2, r1⟩ st now n :=
    fun _ _ _ => rfl
  refine ⟨hg, ?_⟩
  intro st chunks
  induction chunks generalizing st with
  | nil => rfl
  | cons c rest ih =>
    obtain ⟨now, data⟩ := c
    simp only [forward_data]
    rw [hg st now (data.length : Int), ih]

/-- Witness for C9 at a concrete input: cap 1000, interval 1, burst 0
versus burst 500; a fresh state, a 1500-byte request, and a single-chunk
relay. -/
theorem C9_burst_never_affects_forwarding_witness :
    get_delay ⟨1000, 0, 1⟩ ⟨0, 0⟩ 0 1500 =
      get_delay ⟨1000, 500, 1⟩ ⟨0, 0⟩ 0 1500 ∧
    forward_data ⟨1000, 0, 1⟩ ⟨0, 0⟩ [(0, [1, 2, 3])] =
      forward_data ⟨1000, 500, 1⟩ ⟨0, 0⟩ [(0, [1, 2, 3])] :=
  ⟨(C9_burst_never_affects_forwarding ⟨1000, 0, 1⟩ ⟨1000, 500, 1⟩ rfl rfl).1
      ⟨0, 0⟩ 0 1500,
   (C9_burst_never_affects_forwarding ⟨1000, 0, 1⟩ ⟨1000, 500, 1⟩ rfl rfl).2
      ⟨0, 0⟩ [(0, [1, 2, 3])]⟩

/-- SOCKS version constant of the `SOCKS5Server` class (socks5_proxy.py,
line 93). -/
def SOCKS_VERSION : Nat := 0x05

/-- Authentication method constant (line 96). -/
def NO_AUTH : Nat := 0x00

/-- Authentication method constant (line 99). -/
def NO_ACCEPTABLE_METHODS : Nat := 0xFF

/-- Command constant (line 102). -/
def CONNECT : Nat := 0x01

/-- Address type constant (line 107). -/
def IPV4 : Nat := 0x01

/-- Address type constant (line 108). -/
def DOMAIN_NAME : Nat := 0x03

/-- Address type constant (line 109). -/
def IPV6 : Nat := 0x04

/-- Reply code constant (line 112). -/
def SUCCESS : Nat := 0x00

/-- Reply code constant (line 117). -/
def CONNECTION_REFUSED : Nat := 0x05

/-- Reply code constant (line 119). -/
def COMMAND_NOT_SUPPORTED : Nat := 0x07

/-- Reply code constant (line 120). -/
def ADDRESS_TYPE_NOT_SUPPORTED : Nat := 0x08

/-- Result of one `recv` call on the client socket: either the bytes the
kernel returned (possibly fewer than requested; the empty list is
end-of-stream) or a raised socket error. -/
inductive RecvResult where
  | ok (bs : List Nat)
  | err
deriving DecidableEq

/-- A script of successive `recv` results for one client connection. -/
abbrev RecvScript := List RecvResult

/-- One call `client_socket.recv n`: consume the next scripted result;
`recv` returns at most `n` bytes and bytes are octets, so the scripted
chunk is truncated to `n` entries reduced mod 256; `none` models a raised
socket error. An exhausted script behaves as end-of-stream. -/
def recv (n : Nat) : RecvScript → Option (List Nat) × RecvScript
  | [] => (some [], [])
  | .ok bs :: rest => (some ((bs.take n).map (· % 256)), rest)
  | .err :: rest => (none, rest)

/-- Validity of a byte sequence as UTF-8, modelling whether the call
`domain_data.decode("utf-8")` in `_parse_address` succeeds or raises
`UnicodeDecodeError` (which the except-branch turns into a parse
failure). -/
def utf8Valid : List Nat → Bool
  | [] => true
  | b :: rest =>
    if b ≤ 0x7F then utf8Valid rest
    else if 0xC2 ≤ b ∧ b ≤ 0xDF then
      match rest with
      | c1 :: rest1 => decide (0x80 ≤ c1 ∧ c1 ≤ 0xBF) && utf8Valid rest1
      | [] => false
    else if b = 0xE0 then
      match rest with
      | c1 :: c2 :: rest2 =>
        decide (0xA0 ≤ c1 ∧ c1 ≤ 0xBF) && decide (0x80 ≤ c2 ∧ c2 ≤ 0xBF) &&
          utf8Valid rest2
      | _ => false
    else if (0xE1 ≤ b ∧ b ≤ 0xEC) ∨ b = 0xEE ∨ b = 0xEF then
      match rest with
      | c1 :: c2 :: rest2 =>
        decide (0x80 ≤ c1 ∧ c1 ≤ 0xBF) && decide (0x80 ≤ c2 ∧ c2 ≤ 0xBF) &&
          utf8Valid rest2
      | _ => false
    else if b = 0xED then
      match rest with
      | c1 :: c2 :: rest2 =>
        decide (0x80 ≤ c1 ∧ c1 ≤ 0x9F) && decide (0x80 ≤ c2 ∧ c2 ≤ 0xBF) &&
          utf8Valid rest2
      | _ => false
    else if b = 0xF0 then
      match rest with
      | c1 :: c2 :: c3 :: rest3 =>
        decide (0x90 ≤ c1 ∧ c1 ≤ 0xBF) && decide (0x80 ≤ c2 ∧ c2 ≤ 0xBF) &&
          decide (0x80 ≤ c3 ∧ c3 ≤ 0xBF) && utf8Valid rest3
      | _ => false
    else if 0xF1 ≤ b ∧ b ≤ 0xF3 then
      match rest with
      | c1 :: c2 :: c3 :: rest3 =>
        decide (0x80 ≤ c1 ∧ c1 ≤ 0xBF) && decide (0x80 ≤ c2 ∧ c2 ≤ 0xBF) &&
          decide (0x80 ≤ c3 ∧ c3 ≤ 0xBF) && utf8Valid rest3
      | _ => false
    else if b = 0xF4 then
      match rest with
      | c1 :: c2 :: c3 :: rest3 =>
        decide (0x80 ≤ c1 ∧ c1 ≤ 0x8F) && decide (0x80 ≤ c2 ∧ c2 ≤ 0xBF) &&
          decide (0x80 ≤ c3 ∧ c3 ≤ 0xBF) && utf8Valid rest3
      | _ => false
    else false

/-- Destination address as parsed by `_parse_address`: an IPv4 address
(the 4 raw bytes behind the `inet_ntoa` dotted-quad string), a domain
name (the raw bytes behind the decoded string), or an IPv6 address (the
16 raw bytes behind the `inet_ntop` string). -/
inductive Addr where
  | ipv4 (bs : List Nat)
  | domain (bs : List Nat)
  | ipv6 (bs : List Nat)
deriving DecidableEq

/-- Python truthiness of the parsed address string, as used by the guard
`if not dest_addr` in `_handle_connection_request`: dotted-quad and IPv6
strings are never empty; a domain decodes to the empty string exactly
when its byte list is empty. -/
def Addr.isTruthy : Addr → Bool
  | .domain [] => false
  | _ => true

/-- The port block at the end of `_parse_address` (socks5_proxy.py, lines
328-332): read 2 bytes and unpack them as a big-endian unsigned 16-bit
integer; a short read or a socket error is a parse failure. -/
def parse_port (s : RecvScript) : Option Nat × RecvScript :=
  match recv 2 s with
  | (none, s1) => (none, s1)
  | (some pd, s1) =>
    match pd with
    | [hi, lo] => (some (hi * 256 + lo), s1)
    | _ => (none, s1)

/-- `SOCKS5Server._parse_address` (socks5_proxy.py, lines 300-338):
dispatch on the address type; a short read of the address bytes, a short
or empty read of the domain length byte (`recv(1)[0]` raises IndexError
on empty), a short read of the domain bytes, an invalid UTF-8 domain
(decode raises), an unknown address type, a short read of the port, or a
socket error anywhere all return `none` — the outcome of the source
returning `(None, None)` directly or through its except-branch. -/
def parse_address (atyp : Nat) (s : RecvScript) :
    Option (Addr × Nat) × RecvScript :=
  if atyp = IPV4 then
    match recv 4 s with
    | (none, s1) => (none, s1)
    | (some ad, s1) =>
      if ad.length = 4 then
        match parse_port s1 with
        | (some p, s2) => (some (Addr.ipv4 ad, p), s2)
        | (none, s2) => (none, s2)
      else (none, s1)
  else if atyp = DOMAIN_NAME then
    match recv 1 s with
    | (none, s1) => (none, s1)
    | (some lb, s1) =>
      match lb with
      | [] => (none, s1)
      | dlen :: _ =>
        match recv dlen s1 with
        | (none, s2) => (none, s2)
        | (some dd, s2) =>
          if dd.length = dlen then
            if utf8Valid dd then
              match parse_port s2 with
              | (some p, s3) => (some (Addr.domain dd, p), s3)
              | (none, s3) => (none, s3)
            else (none, s2)
          else (none, s2)
  else if atyp = IPV6 then
    match recv 16 s with
    | (none, s1) => (none, s1)
    | (some ad, s1) =>
      if ad.length = 16 then
        match parse_port s1 with
        | (some p, s2) => (some (Addr.ipv6 ad, p), s2)
        | (none, s2) => (none, s2)
      else (none, s1)
  else (none, s)

/-- `struct.pack("!H", p)` for a port produced by `parse_port` (always
below 65536): two big-endian bytes. -/
def packPort (p : Nat) : List Nat := [p / 256 % 256, p % 256]

/-- `SOCKS5Server._send_error_response` (socks5_proxy.py, lines 356-366):
version, the reply code, reserved 0, address type IPv4, a zero-filled
4-byte address and a zero port. -/
def error_response (error_code : Nat) : List Nat :=
  [SOCKS_VERSION, error_code, 0x00, IPV4] ++ [0, 0, 0, 0] ++ [0, 0]

/-- `socket.inet_aton` applied to the address strings that reach
`_send_success_response`: on a dotted quad produced by `inet_ntoa` it
returns the original four bytes; on domain-name and IPv6 strings it
raises, modelled as `none` (Python additionally accepts some purely
numeric domain strings, a case no theorem below relies on). -/
def inet_aton : Addr → Option (List Nat)
  | .ipv4 bs => some bs
  | .domain _ => none
  | .ipv6 _ => none

/-- `SOCKS5Server._send_success_response` (socks5_proxy.py, lines
340-354): convert `bind_addr` with `inet_aton`, then send version,
SUCCESS, reserved 0, IPv4, the four address bytes and the two port
bytes; when `inet_aton` raises, the exception is caught and nothing is
sent (`none`). -/
def success_response (bind_addr : Addr) (bind_port : Nat) :
    Option (List Nat) :=
  match inet_aton bind_addr with
  | none => none
  | some ab =>
    some ([SOCKS_VERSION, SUCCESS, 0x00, IPV4] ++ ab ++ packPort bind_port)

/-- Outcome of `target_socket.connect((dest_addr, dest_port))` under the
10-second timeout: the TCP connection is established (carrying the local
address bytes and port the OS bound the destination-facing socket to, as
`getsockname` would report), or a dial error. Destination unreachable,
connection refused and dial timeout all raise subclasses of
`socket.error` (OSError), so all three take the same except-branch in
`_handle_connection_request`. -/
inductive DialOutcome where
  | established (localAddr : List Nat) (localPort : Nat)
  | unreachable
  | refused
  | timedOut
deriving DecidableEq

/-- Whether the dial raised a socket error. -/
def DialOutcome.isError : DialOutcome → Bool
  | .established _ _ => false
  | _ => true

/-- Observable outcome of `SOCKS5Server._handle_connection_request`: the
replies written to the client socket in order, and the destination the
returned target socket is connected to (`none` when the method returns
`None`, in which case the caller abandons the session). -/
structure RequestOutcome where
  sent : List (List Nat)
  target : Option (Addr × Nat)
deriving DecidableEq

/-- `SOCKS5Server._handle_connection_request` (socks5_proxy.py, lines
255-298), with the destination dial supplied by the oracle `dial`: read
the 4-byte request header; a short read or wrong version ends the session
with no reply; a command other than CONNECT sends
COMMAND_NOT_SUPPORTED; a parse failure or a falsy parsed address sends
ADDRESS_TYPE_NOT_SUPPORTED; a dial error sends CONNECTION_REFUSED and
closes the target socket; an established dial sends the success response
built from the requested destination address and port (not from the
locally bound address of the target socket) and hands the target to the
relay. -/
def handle_connection_request (dial : Addr → Nat → DialOutcome)
    (s : RecvScript) : RequestOutcome :=
  match recv 4 s with
  | (none, _) => ⟨[], none⟩
  | (some hd, s1) =>
    match hd with
    | [version, cmd, _rsv, atyp] =>
      if version ≠ SOCKS_VERSION then ⟨[], none⟩
      else if cmd ≠ CONNECT then
        ⟨[error_response COMMAND_NOT_SUPPORTED], none⟩
      else
        match parse_address atyp s1 with
        | (none, _) => ⟨[error_response ADDRESS_TYPE_NOT_SUPPORTED], none⟩
        | (some (dest_addr, dest_port), _) =>
          if dest_addr.isTruthy = false then
            ⟨[error_response ADDRESS_TYPE_NOT_SUPPORTED], none⟩
          else
            match dial dest_addr dest_port with
            | .established _ _ =>
              match success_response dest_addr dest_port with
              | some resp => ⟨[resp], some (dest_addr, dest_port)⟩
              | none => ⟨[], some (dest_addr, dest_port)⟩
            | _ => ⟨[error_response CONNECTION_REFUSED], none⟩
    | _ => ⟨[], none⟩

/-- `SOCKS5Server._handle_auth_negotiation` (socks5_proxy.py, lines
222-253): read version and method count, read the method list, select
NO_AUTH when offered (reply `[5, 0]`, success) and otherwise reply
`[5, 0xFF]` and fail; a short read, a socket error or a wrong version
fails with no reply. Returns the replies sent, the success flag, and the
remaining script. -/
def handle_auth_negotiation (s : RecvScript) :
    List (List Nat) × Bool × RecvScript :=
  match recv 2 s with
  | (none, s1) => ([], false, s1)
  | (some d, s1) =>
    match d with
    | [version, nmethods] =>
      if version ≠ SOCKS_VERSION then ([], false, s1)
      else
        match recv nmethods s1 with
        | (none, s2) => ([], false, s2)
        | (some methods, s2) =>
          if methods.length ≠ nmethods then ([], false, s2)
          else if NO_AUTH ∈ methods then
            ([[SOCKS_VERSION, NO_AUTH]], true, s2)
          else ([[SOCKS_VERSION, NO_ACCEPTABLE_METHODS]], false, s2)
    | _ => ([], false, s1)

/-- Observable outcome of `SOCKS5Server._handle_client` (socks5_proxy.py,
lines 197-220) for one client session: every reply written to the client
socket in order, whether the session reached the relay stage
(`_relay_data`), and whether the client socket was closed. The source
wraps the whole session in try/except/finally, so every per-session
exception is caught inside the handler thread — no session is fatal to
the server, which is why the model is a total function — and the
finally-block always closes the client socket. -/
structure SessionOutcome where
  sent : List (List Nat)
  relayStarted : Bool
  clientClosed : Bool
deriving DecidableEq

/-- `SOCKS5Server._handle_client` up to the hand-off to `_relay_data`:
run auth negotiation, then the connection request; stop early when either
fails; the finally-block closes the client socket in every case. -/
def handle_client (dial : Addr → Nat → DialOutcome) (s : RecvScript) :
    SessionOutcome :=
  match handle_auth_negotiation s with
  | (authSent, false, _) => ⟨authSent, false, true⟩
  | (authSent, true, s1) =>
    let r := handle_connection_request dial s1
    match r.target with
    | none => ⟨authSent ++ r.sent, false, true⟩
    | some _ => ⟨authSent ++ r.sent, true, true⟩

/-- C1 counterexample: a session whose request asks to CONNECT to
1.2.3.4:80 and whose dial succeeds with the destination-facing socket
locally bound to 10.0.0.7:5555. The server sends the SUCCESS reply whose
BND fields carry the requested destination 1.2.3.4:80
(`_send_success_response` is called with `dest_addr, dest_port`), and
that reply differs from the reply the claim requires, whose BND fields
would carry the locally bound 10.0.0.7:5555. -/
theorem C1_counterexample :
    handle_client (fun _ _ => DialOutcome.established [10, 0, 0, 7] 5555)
      [.ok [5, 1], .ok [0], .ok [5, 1, 0, 1], .ok [1, 2, 3, 4],
        .ok [0, 80]] =
      ⟨[[5, 0], [5, 0, 0, 1, 1, 2, 3, 4, 0, 80]], true, true⟩ ∧
    ([5, 0, 0, 1, 1, 2, 3, 4, 0, 80] : List Nat) ≠
      [5, 0, 0, 1] ++ [10, 0, 0, 7] ++ packPort 5555 := by
  constructor
  · rfl
  · decide

/-- C1 amended: for every client session whose requested destination is
an IPv4 literal and whose dial succeeds, the server sends a SOCKS5
SUCCESS reply (REP 0x00) whose BND.ADDR and BND.PORT fields are the
requested destination address and port, and the session proceeds to the
relay; the locally bound address and port of the destination-facing
connection are not used (the conclusion does not depend on them). -/
theorem C1_success_reply_carries_destination
    (dial : Addr → Nat → DialOutcome)
    (s sAuth sReq sEnd : RecvScript) (authSent : List (List Nat))
    (rsv atyp : Nat) (ab : List Nat) (port : Nat)
    (la : List Nat) (lp : Nat)
    (hauth : handle_auth_negotiation s = (authSent, true, sAuth))
    (hhd : recv 4 sAuth = (some [SOCKS_VERSION, CONNECT, rsv, atyp], sReq))
    (hparse : parse_address atyp sReq = (some (Addr.ipv4 ab, port), sEnd))
    (hdial : dial (Addr.ipv4 ab) port = DialOutcome.established la lp) :
    handle_client dial s =
      ⟨authSent ++
        [[SOCKS_VERSION, SUCCESS, 0x00, IPV4] ++ ab ++ packPort port],
       true, true⟩ := by
  simp [handle_client, handle_connection_request, hauth, hhd, hparse, hdial,
    success_response, inet_aton, Addr.isTruthy]

/-- Witness for C1 amended at the concrete session of the
counterexample: destination 1.2.3.4:80, dial locally bound to
10.0.0.7:5555. -/
theorem C1_success_reply_carries_destination_witness :
    handle_client (fun _ _ => DialOutcome.established [10, 0, 0, 7] 5555)
      [.ok [5, 1], .ok [0], .ok [5, 1, 0, 1], .ok [1, 2, 3, 4],
        .ok [0, 80]] =
      ⟨[[5, 0]] ++
        [[SOCKS_VERSION, SUCCESS, 0x00, IPV4] ++ [1, 2, 3, 4] ++ packPort 80],
       true, true⟩ :=
  C1_success_reply_carries_destination
    (fun _ _ => DialOutcome.established [10, 0, 0, 7] 5555)
    [.ok [5, 1], .ok [0], .ok [5, 1, 0, 1], .ok [1, 2, 3, 4], .ok [0, 80]]
    [.ok [5, 1, 0, 1], .ok [1, 2, 3, 4], .ok [0, 80]]
    [.ok [1, 2, 3, 4], .ok [0, 80]] [] [[5, 0]]
    0 1 [1, 2, 3, 4] 80 [10, 0, 0, 7] 5555 rfl rfl rfl rfl

/-- C8: whenever the connection request parses to a truthy destination
and the dial raises — destination unreachable, connection refused and
dial timeout alike — the server sends exactly one further reply, the
CONNECTION_REFUSED reply (REP 0x05) `[5, 5, 0, 1, 0, 0, 0, 0, 0, 0]`
with zero-filled IPv4 BND.ADDR and BND.PORT, the relay is never entered,
and the client socket is closed; the handler returns normally, so the
failure is never fatal to the server. -/
theorem C8_dial_failure_sends_connection_refused
    (dial : Addr → Nat → DialOutcome)
    (s sAuth sReq sEnd : RecvScript) (authSent : List (List Nat))
    (rsv atyp : Nat) (dest : Addr) (port : Nat)
    (hauth : handle_auth_negotiation s = (authSent, true, sAuth))
    (hhd : recv 4 sAuth = (some [SOCKS_VERSION, CONNECT, rsv, atyp], sReq))
    (hparse : parse_address atyp sReq = (some (dest, port), sEnd))
    (htru : dest.isTruthy = true)
    (hfail : (dial dest port).isError = true) :
    handle_client dial s =
      ⟨authSent ++ [error_response CONNECTION_REFUSED], false, true⟩ ∧
    error_response CONNECTION_REFUSED =
      [5, 5, 0, 1, 0, 0, 0, 0, 0, 0] := by
  refine ⟨?_, rfl⟩
  cases hdial : dial dest port with
  | established la lp =>
    rw [hdial] at hfail
    simp [DialOutcome.isError] at hfail
  | unreachable =>
    simp [handle_client, handle_connection_request, hauth, hhd, hparse,
      htru, hdial]
  | refused =>
    simp [handle_client, handle_connection_request, hauth, hhd, hparse,
      htru, hdial]
  | timedOut =>
    simp [handle_client, handle_connection_request, hauth, hhd, hparse,
      htru, hdial]

/-- Witness for C8 at a concrete session: destination 1.2.3.4:80 whose
dial is refused. -/
theorem C8_dial_failure_sends_connection_refused_witness :
    handle_client (fun _ _ => DialOutcome.refused)
      [.ok [5, 1], .ok [0], .ok [5, 1, 0, 1], .ok [1, 2, 3, 4],
        .ok [0, 80]] =
      ⟨[[5, 0]] ++ [error_response CONNECTION_REFUSED], false, true⟩ ∧
    error_response CONNECTION_REFUSED =
      [5, 5, 0, 1, 0, 0, 0, 0, 0, 0] :=
  C8_dial_failure_sends_connection_refused
    (fun _ _ => DialOutcome.refused)
    [.ok [5, 1], .ok [0], .ok [5, 1, 0, 1], .ok [1, 2, 3, 4], .ok [0, 80]]
    [.ok [5, 1, 0, 1], .ok [1, 2, 3, 4], .ok [0, 80]]
    [.ok [1, 2, 3, 4], .ok [0, 80]] [] [[5, 0]]
    0 1 (Addr.ipv4 [1, 2, 3, 4]) 80 rfl rfl rfl rfl rfl

/-- C10: every address-parsing failure in the connection request — an
unknown ATYP, a truncated IPv4, IPv6 or domain field, a truncated port,
an empty or failed read of the domain length byte, an invalid UTF-8
domain, or a socket error during parsing, all of which make
`parse_address` return `none` — causes the server to send the
ADDRESS_TYPE_NOT_SUPPORTED reply (REP 0x08)
`[5, 8, 0, 1, 0, 0, 0, 0, 0, 0]` with zero-filled IPv4 BND fields, never
enter the relay, and close the client connection. -/
theorem C10_parse_failure_sends_atyp_error
    (dial : Addr → Nat → DialOutcome)
    (s sAuth sReq sEnd : RecvScript) (authSent : List (List Nat))
    (rsv atyp : Nat)
    (hauth : handle_auth_negotiation s = (authSent, true, sAuth))
    (hhd : recv 4 sAuth = (some [SOCKS_VERSION, CONNECT, rsv, atyp], sReq))
    (hparse : parse_address atyp sReq = (none, sEnd)) :
    handle_client dial s =
      ⟨authSent ++ [error_response ADDRESS_TYPE_NOT_SUPPORTED],
       false, true⟩ ∧
    error_response ADDRESS_TYPE_NOT_SUPPORTED =
      [5, 8, 0, 1, 0, 0, 0, 0, 0, 0] := by
  refine ⟨?_, rfl⟩
  simp [handle_client, handle_connection_request, hauth, hhd, hparse]

/-- Witness for C10 at a concrete session: an IPv4 request whose 4-byte
address field is truncated to 2 bytes. -/
theorem C10_parse_failure_sends_atyp_error_witness :
    handle_client (fun _ _ => DialOutcome.refused)
      [.ok [5, 1], .ok [0], .ok [5, 1, 0, 1], .ok [1, 2]] =
      ⟨[[5, 0]] ++ [error_response ADDRESS_TYPE_NOT_SUPPORTED],
       false, true⟩ ∧
    error_response ADDRESS_TYPE_NOT_SUPPORTED =
      [5, 8, 0, 1, 0, 0, 0, 0, 0, 0] :=
  C10_parse_failure_sends_atyp_error
    (fun _ _ => DialOutcome.refused)
    [.ok [5, 1], .ok [0], .ok [5, 1, 0, 1], .ok [1, 2]]
    [.ok [5, 1, 0, 1], .ok [1, 2]]
    [.ok [1, 2]] [] [[5, 0]] 0 1 rfl rfl rfl

/-- One observable event of the accept loop in `SOCKS5Server.start`
(socks5_proxy.py, lines 161-177): a connection is accepted and dispatched
to a handler thread; `accept` raises a socket error while the server is
still running (logged, loop continues); or `stop()` is invoked from
another execution context — it sets `running` to False and closes the
listening socket, the pending `accept` raises, the except-branch sees
`running` False and the while-condition exits the loop. -/
inductive AcceptEvent where
  | accepted
  | acceptErrorWhileRunning
  | stopRequested
deriving DecidableEq

/-- Result of a call to `SOCKS5Server.start` as seen by its caller:
either an exception propagated out of `start`, or `start` returned
normally (`bindFailed` records whether the return came through the
bind-failure except-branch, `clients` how many connections were
accepted), or the call is still blocked inside the accept loop because no
stop has happened yet. -/
inductive StartResult where
  | raised
  | returned (bindFailed : Bool) (clients : Nat)
  | blockedInAcceptLoop (clients : Nat)
deriving DecidableEq

/-- The accept loop of `SOCKS5Server.start` (socks5_proxy.py, lines
161-177) over a finite script of accept events: accepted connections
increment `client_count`; socket errors while running are logged and the
loop continues; after `stop()` the loop exits and `start` returns
normally through its finally-block. When the scripted events run out
with no stop, the call is still blocked in `accept`. -/
def accept_loop (clients : Nat) : List AcceptEvent → StartResult
  | [] => .blockedInAcceptLoop clients
  | .accepted :: rest => accept_loop (clients + 1) rest
  | .acceptErrorWhileRunning :: rest => accept_loop clients rest
  | .stopRequested :: _ => .returned false clients

/-- `SOCKS5Server.start` (socks5_proxy.py, lines 145-182): when bind or
listen raises, the except-branch logs the failure, the finally-block runs
`stop()`, and `start` returns normally — the exception is swallowed, not
propagated to the caller; when the socket binds, the accept loop runs. -/
def start (bindOk : Bool) (events : List AcceptEvent) : StartResult :=
  if bindOk then accept_loop 0 events else .returned true 0

/-- C2 counterexample: with a failing bind and no accept events, `start`
returns normally out of its except-branch after logging the error — it
does not propagate the failure to its caller, refuting the claim that a
bind or listen failure is surfaced to the caller of `start`. -/
theorem C2_counterexample :
    start false [] = StartResult.returned true 0 ∧
    StartResult.returned true 0 ≠ StartResult.raised :=
  ⟨rfl, by decide⟩

/-- C2 amended: a bind or listen failure is fatal to startup — the
accept loop never runs and `start` comes back at once — but the
exception is caught and logged inside `start`, which returns normally
instead of surfacing the failure to its caller; with a successful bind,
`start` never raises, and it returns (rather than staying blocked in the
accept loop) exactly when `stop()` has been invoked. -/
theorem C2_start_swallows_bind_failure_and_blocks_until_stop
    (events : List AcceptEvent) :
    start false events = StartResult.returned true 0 ∧
    start true events ≠ StartResult.raised ∧
    ((∃ b n, start true events = StartResult.returned b n) ↔
      AcceptEvent.stopRequested ∈ events) := by
  have key : ∀ (evs : List AcceptEvent) (c : Nat),
      accept_loop c evs ≠ StartResult.raised ∧
      ((∃ b n, accept_loop c evs = StartResult.returned b n) ↔
        AcceptEvent.stopRequested ∈ evs) := by
    intro evs
    induction evs with
    | nil =>
      intro c
      refine ⟨by simp [accept_loop], ?_⟩
      constructor
      · rintro ⟨b, n, h⟩
        simp [accept_loop] at h
      · intro h
        simp at h
    | cons e rest ih =>
      intro c
      cases e with
      | accepted =>
        refine ⟨(ih (c + 1)).1, ?_⟩
        show (∃ b n, accept_loop (c + 1) rest = StartResult.returned b n) ↔ _
        rw [(ih (c + 1)).2]
        simp [List.mem_cons]
      | acceptErrorWhileRunning =>
        refine ⟨(ih c).1, ?_⟩
        show (∃ b n, accept_loop c rest = StartResult.returned b n) ↔ _
        rw [(ih c).2]
        simp [List.mem_cons]
      | stopRequested =>
        refine ⟨by simp [accept_loop], ?_⟩
        constructor
        · intro _
          exact List.mem_cons_self _ _
        · intro _
          exact ⟨false, c, rfl⟩
  exact ⟨rfl, (key events 0).1, (key events 0).2⟩

/-- Witness for C2 amended at a concrete event script: one accepted
connection followed by a stop request. -/
theorem C2_start_swallows_bind_failure_and_blocks_until_stop_witness :
    start false [AcceptEvent.accepted, AcceptEvent.stopRequested] =
      StartResult.returned true 0 ∧
    start true [AcceptEvent.accepted, AcceptEvent.stopRequested] ≠
      StartResult.raised ∧
    ((∃ b n, start true [AcceptEvent.accepted, AcceptEvent.stopRequested] =
        StartResult.returned b n) ↔
      AcceptEvent.stopRequested ∈
        [AcceptEvent.accepted, AcceptEvent.stopRequested]) :=
  C2_start_swallows_bind_failure_and_blocks_until_stop
    [AcceptEvent.accepted, AcceptEvent.stopRequested]
